import Mathlib

/-!
Shallow embedding of the key-chain library (HKDF, PRG and XDRBG key chains,
with an in-memory storage backend) and proofs of the specification claims.

Byte sequences are modelled as `List Nat` (each entry a byte value); machine
`usize` arithmetic is modelled by `Nat` (lengths never overflow in scope).
The external cryptographic primitives (the hash functions behind HMAC, the
AES block cipher, and the SHAKE/Ascon XOFs) are out of scope of the library
and are passed in as explicit function parameters; theorems that need their
output sizes take that as a hypothesis.
Fallible operations return `Except Errors`.
-/

namespace KeyChains

/-- The `Errors` enum of `errors.rs`, together with the variants of
`PrgError` from `crypto_primitives/errors.rs` that the PRG operations
return (the source threads both enums through the same call paths). -/
inductive Errors where
  | InvalidLength (msg : String)
  | UnexpectedOutputType (msg : String)
  | ParamNotProvided (msg : String)
  | UninitializedStorage (msg : String)
  | NoStoredState (msg : String)
  | XORLengthMismatch (msg : String)
  | InvalidInputKeyLength (msg : String)
  deriving DecidableEq, Repr

/-- The Rust enum variant name of an error value. -/
def Errors.rustName : Errors → String
  | .InvalidLength _ => "InvalidLength"
  | .UnexpectedOutputType _ => "UnexpectedOutputType"
  | .ParamNotProvided _ => "ParamNotProvided"
  | .UninitializedStorage _ => "UninitializedStorage"
  | .NoStoredState _ => "NoStoredState"
  | .XORLengthMismatch _ => "XORLengthMismatch"
  | .InvalidInputKeyLength _ => "InvalidInputKeyLength"

/-- The `HashFunc` enum of `hkdf_wrap_ops.rs`. -/
inductive HashFunc where
  | Sha256
  | Sha512
  | Sha3_256
  | Sha3_512
  deriving DecidableEq, Repr

/-- The Debug rendering of a `HashFunc` value. -/
def HashFunc.debugName : HashFunc → String
  | .Sha256 => "Sha256"
  | .Sha512 => "Sha512"
  | .Sha3_256 => "Sha3_256"
  | .Sha3_512 => "Sha3_512"

/-- `HashFunc::output_size` — the digest size of each hash variant. -/
def HashFunc.outputSize : HashFunc → Nat
  | .Sha256 => 32
  | .Sha512 => 64
  | .Sha3_256 => 32
  | .Sha3_512 => 64

/-- The error message built by `HashFunc::check_and_get_salt`. -/
def saltLenMsg (hf : HashFunc) (saltLen : Nat) : String :=
  "Provided salt of " ++ toString saltLen ++ " bytes. Acceptable length is <= "
    ++ toString hf.outputSize ++ " bytes for the hash function " ++ hf.debugName

/-- `HashFunc::check_and_get_salt`: an absent salt defaults to an all-zero
buffer of digest size; a salt longer than the digest size is rejected. -/
def HashFunc.checkAndGetSalt (hf : HashFunc) (extractorSalt : Option (List Nat)) :
    Except Errors (List Nat) :=
  match extractorSalt with
  | some val =>
      if val.length > hf.outputSize then
        .error (.InvalidLength (saltLenMsg hf val.length))
      else
        .ok val
  | none => .ok (List.replicate hf.outputSize 0)

/-- The error message built by `HashFunc::is_output_length_okay`. -/
def expandLenMsg (hf : HashFunc) (totalOutputLength : Nat) : String :=
  "Total requested output size: " ++ toString totalOutputLength
    ++ " bytes. Acceptable length is <= " ++ toString (255 * hf.outputSize)
    ++ " bytes for the hash function " ++ hf.debugName

/-- `HashFunc::is_output_length_okay`: the HKDF expand hard limit of
`255 * digest_size` bytes. -/
def HashFunc.isOutputLengthOkay (hf : HashFunc) (totalOutputLength : Nat) :
    Except Errors Unit :=
  if totalOutputLength > 255 * hf.outputSize then
    .error (.InvalidLength (expandLenMsg hf totalOutputLength))
  else
    .ok ()

/-- The type of the external HMAC primitive behind the `hkdf` crate:
`hmac hf key message` is the HMAC tag under hash variant `hf`.  The real
primitive always returns `hf.outputSize` bytes; theorems that need this
take it as a hypothesis. -/
def HmacFn : Type := HashFunc → List Nat → List Nat → List Nat

/-- `HkdfWrap::hkdf_extract`: validate the salt, then the pseudorandom key
is `HMAC(salt, ikm)` (the `HkdfExtract` behaviour of the `hkdf` crate). -/
def hkdfExtract (hmac : HmacFn) (hf : HashFunc) (extractorSalt : Option (List Nat))
    (sourceKeyMaterial : List Nat) : Except Errors (List Nat) :=
  match hf.checkAndGetSalt extractorSalt with
  | .ok salt => .ok (hmac hf salt sourceKeyMaterial)
  | .error e => .error e

/-- The RFC 5869 expand block stream as computed by the `hkdf` crate:
`T(i) = HMAC(prk, T(i-1) ‖ info ‖ [i])` with the counter starting at 1,
`k` blocks in total.  `prev` is the previous block (`T(0)` is empty). -/
def hkdfExpandStream (hmac : HmacFn) (hf : HashFunc) (prk info : List Nat) :
    Nat → Nat → List Nat → List Nat
  | 0, _, _ => []
  | k + 1, i, prev =>
      let t := hmac hf prk (prev ++ info ++ [i % 256])
      t ++ hkdfExpandStream hmac hf prk info k (i + 1) t

/-- The `hkdf` crate's `from_prk` accepts a pseudorandom key only when it is
at least one digest long (a shorter one aborts via `expect` in the source's
`hkdf_expand!` macro, which is outside `Except`-modelled failure). -/
def fromPrkOk (hf : HashFunc) (prk : List Nat) : Prop :=
  hf.outputSize ≤ prk.length

/-- `HkdfWrap::hkdf_expand`: an absent info defaults to the empty sequence;
after the `255 * digest_size` bound check the output is the first
`totalOutputLength` bytes of the expand block stream. -/
def hkdfExpand (hmac : HmacFn) (hf : HashFunc) (prk : List Nat)
    (infoParam : Option (List Nat)) (totalOutputLength : Nat) :
    Except Errors (List Nat) :=
  let info := infoParam.getD []
  match hf.isOutputLengthOkay totalOutputLength with
  | .ok _ =>
      .ok ((hkdfExpandStream hmac hf prk info
              ((totalOutputLength + hf.outputSize - 1) / hf.outputSize) 1 []).take
            totalOutputLength)
  | .error e => .error e

/-! ### PRG operations (`crypto_primitives/prg_ops.rs`) -/

/-- `NONCE_FOR_PRG_NEXT`: the byte literal `b"\x96\n\n\n\n\n\n\n\n\n\n\n"`. -/
def nonceForPrgNext : List Nat := 0x96 :: List.replicate 11 0x0A

/-- `NONCE_FOR_PRG_REFRESH`: the byte literal `b"\x96\r\r\r\r\r\r\r\r\r\r\r"`. -/
def nonceForPrgRefresh : List Nat := 0x96 :: List.replicate 11 0x0D

/-- The `Steps` enum of `prg_ops.rs`. -/
inductive Steps where
  | Refresh
  | Next
  deriving DecidableEq

/-- The `PrgOutput` enum of `prg_ops.rs`. -/
inductive PrgOutput where
  | Refresh (output : List Nat)
  | Next (randomOutput newPrgState : List Nat)
  deriving DecidableEq

/-- The type of the external AES block encryption primitive behind the
`aes`/`ctr` crates: `enc key block` encrypts one 16-byte block under `key`
(the AES-128/192/256 variant is selected by the key length).  The real
primitive always returns 16 bytes; theorems that need this take it as a
hypothesis. -/
def BlockEncFn : Type := List Nat → List Nat → List Nat

/-- A little-endian byte sequence read as a natural number, as the
`Ctr128LE` flavour of the `ctr` crate reads the 16-byte IV. -/
def leBytesToNat : List Nat → Nat
  | [] => 0
  | b :: bs => b % 256 + 256 * leBytesToNat bs

/-- A natural number written as `width` little-endian bytes (mod `2 ^ (8 * width)`). -/
def natToLeBytes : Nat → Nat → List Nat
  | 0, _ => []
  | w + 1, v => v % 256 :: natToLeBytes w (v / 256)

/-- The `i`-th counter block of `Ctr128LE`: the 16-byte IV read as a
little-endian 128-bit integer, incremented by `i`, written back out. -/
def ctrBlock (iv : List Nat) (i : Nat) : List Nat :=
  natToLeBytes 16 (leBytesToNat iv + i)

/-- The CTR-mode keystream: concatenation of block encryptions of the
successive counter blocks. -/
def ctrKeystream (enc : BlockEncFn) (key iv : List Nat) (nblocks : Nat) : List Nat :=
  ((List.range nblocks).map (fun i => enc key (ctrBlock iv i))).flatten

/-- `cipher.apply_keystream`: XOR the buffer with the CTR keystream
(enough blocks to cover the buffer). -/
def ctrEncrypt (enc : BlockEncFn) (key iv pt : List Nat) : List Nat :=
  List.zipWith (fun a b => a ^^^ b) pt
    (ctrKeystream enc key iv ((pt.length + 15) / 16))

/-- The error message built by the key-length check of
`Prg::aes_in_counter_mode_as_prg`. -/
def keyLenMsg (keyLen : Nat) : String :=
  toString keyLen ++ " bytes. Acceptable key sizes are 16, 24 or 32 bytes."

/-- `Prg::aes_in_counter_mode_as_prg`: reject keys that are not 16, 24 or
32 bytes; build the IV from the step's nonce followed by the big-endian
32-bit counter value 1; encrypt an all-zero plaintext of
`2 * security_param_lambda` bytes in counter mode; split per step. -/
def aesInCounterModeAsPrg (enc : BlockEncFn) (securityParamLambda : Nat)
    (inputKey : List Nat) (step : Steps) : Except Errors PrgOutput :=
  if inputKey.length = 16 ∨ inputKey.length = 24 ∨ inputKey.length = 32 then
    let iv : List Nat :=
      (if step = Steps.Refresh then nonceForPrgRefresh else nonceForPrgNext)
        ++ [0, 0, 0, 1]
    let plaintext : List Nat := List.replicate (2 * securityParamLambda) 0
    let ciphertext : List Nat := ctrEncrypt enc inputKey iv plaintext
    match step with
    | Steps.Refresh => .ok (PrgOutput.Refresh (ciphertext.take securityParamLambda))
    | Steps.Next =>
        .ok (PrgOutput.Next (ciphertext.take securityParamLambda)
              (ciphertext.drop securityParamLambda))
  else
    .error (.InvalidInputKeyLength (keyLenMsg inputKey.length))

/-- `Prg::xor_bytes`: byte-wise XOR of equal-length inputs. -/
def xorBytes (param1 param2 : List Nat) : Except Errors (List Nat) :=
  if param1.length ≠ param2.length then
    .error (.XORLengthMismatch "Cannot XOR bytes of unequal length.")
  else
    .ok (List.zipWith (fun a b => a ^^^ b) param1 param2)

/-- `Prg::prg_refresh`: XOR the state with the extracted parameter, then
run the counter-mode engine in the `Refresh` step. -/
def prgRefresh (enc : BlockEncFn) (securityParamLambda : Nat)
    (currentPrgState extractedParameter : List Nat) : Except Errors (List Nat) :=
  match xorBytes currentPrgState extractedParameter with
  | .error e => .error e
  | .ok xoredValue =>
      match aesInCounterModeAsPrg enc securityParamLambda xoredValue Steps.Refresh with
      | .ok (PrgOutput.Refresh output) => .ok output
      | .ok (PrgOutput.Next _ _) =>
          .error (.UnexpectedOutputType
            "Received output of prg_next() during prg_refresh().")
      | .error e => .error e

/-- `Prg::prg_next`: run the counter-mode engine in the `Next` step and
return (random output, new state). -/
def prgNext (enc : BlockEncFn) (securityParamLambda : Nat)
    (currentPrgState : List Nat) : Except Errors (List Nat × List Nat) :=
  match aesInCounterModeAsPrg enc securityParamLambda currentPrgState Steps.Next with
  | .ok (PrgOutput.Refresh _) =>
      .error (.UnexpectedOutputType
        "Received output of prg_refresh() during prg_next().")
  | .ok (PrgOutput.Next randomOutput newPrgState) => .ok (randomOutput, newPrgState)
  | .error e => .error e

/-! ### XDRBG operations (`crypto_primitives/xdrbg_ops.rs`) -/

/-- `MAX_LEN_ALPHA`. -/
def maxLenAlpha : Nat := 84

/-- The `XdrbgOps` enum of `xdrbg_ops.rs`. -/
inductive XdrbgOps where
  | Instantiate
  | Reseed
  deriving DecidableEq

/-- The Debug rendering of an `XdrbgOps` value. -/
def XdrbgOps.debugName : XdrbgOps → String
  | .Instantiate => "Instantiate"
  | .Reseed => "Reseed"

/-- The `Xof` enum of `xdrbg_ops.rs`. -/
inductive Xof where
  | Shake128
  | Shake256
  | Ascon
  deriving DecidableEq, Repr

/-- The Debug rendering of an `Xof` value. -/
def Xof.debugName : Xof → String
  | .Shake128 => "Shake128"
  | .Shake256 => "Shake256"
  | .Ascon => "Ascon"

/-- `Xof::state_size`. -/
def Xof.stateSize : Xof → Nat
  | .Shake128 => 32
  | .Shake256 => 64
  | .Ascon => 32

/-- `Xof::min_seed_size_instantiate`. -/
def Xof.minSeedSizeInstantiate : Xof → Nat
  | .Shake128 => 24
  | .Shake256 => 48
  | .Ascon => 24

/-- `Xof::min_seed_size_reseed`. -/
def Xof.minSeedSizeReseed : Xof → Nat
  | .Shake128 => 16
  | .Shake256 => 32
  | .Ascon => 16

/-- `Xof::max_total_output_size`. -/
def Xof.maxTotalOutputSize : Xof → Nat
  | .Shake128 => 304
  | .Shake256 => 344
  | .Ascon => 256

/-- The error message built by `Xof::check_size_of_seed`. -/
def seedLenMsg (x : Xof) (seedLen minSeedLen : Nat) (ops : XdrbgOps) : String :=
  "Provided a seed of " ++ toString seedLen ++ " bytes. Minimum seed length is "
    ++ toString minSeedLen ++ " bytes for " ++ x.debugName ++ " XOF during "
    ++ ops.debugName ++ "."

/-- `Xof::check_size_of_seed`. -/
def Xof.checkSizeOfSeed (x : Xof) (seed : List Nat) (minSeedLen : Nat)
    (ops : XdrbgOps) : Except Errors Unit :=
  if seed.length < minSeedLen then
    .error (.InvalidLength (seedLenMsg x seed.length minSeedLen ops))
  else
    .ok ()

/-- The error message built by `Xof::check_size_of_alpha`. -/
def alphaLenMsg (alphaLen : Nat) : String :=
  "Provided alpha of " ++ toString alphaLen ++ " bytes. Maximum length can be "
    ++ toString maxLenAlpha ++ " bytes"

/-- `Xof::check_size_of_alpha`. -/
def Xof.checkSizeOfAlpha (_x : Xof) (alpha : List Nat) : Except Errors Unit :=
  if alpha.length > maxLenAlpha then
    .error (.InvalidLength (alphaLenMsg alpha.length))
  else
    .ok ()

/-- `Xof::are_params_okay`: the seed bound for the operation, then the
alpha bound. -/
def Xof.areParamsOkay (x : Xof) (seed alpha : List Nat) (ops : XdrbgOps) :
    Except Errors Unit :=
  match ops with
  | XdrbgOps.Instantiate =>
      match x.checkSizeOfSeed seed x.minSeedSizeInstantiate ops with
      | .ok _ => x.checkSizeOfAlpha alpha
      | .error e => .error e
  | XdrbgOps.Reseed =>
      match x.checkSizeOfSeed seed x.minSeedSizeReseed ops with
      | .ok _ => x.checkSizeOfAlpha alpha
      | .error e => .error e

/-- The error message built by `Xof::is_output_length_okay`. -/
def xofOutputLenMsg (x : Xof) (outputKeyLength : Nat) : String :=
  "Requested output and XOF state size: " ++ toString outputKeyLength ++ " + "
    ++ toString x.stateSize ++ " = " ++ toString (outputKeyLength + x.stateSize)
    ++ " bytes. Acceptable length is <= " ++ toString x.maxTotalOutputSize
    ++ " bytes for the XOF " ++ x.debugName ++ "."

/-- `Xof::is_output_length_okay`. -/
def Xof.isOutputLengthOkay (x : Xof) (outputKeyLength : Nat) : Except Errors Unit :=
  if outputKeyLength + x.stateSize > x.maxTotalOutputSize then
    .error (.InvalidLength (xofOutputLenMsg x outputKeyLength))
  else
    .ok ()

/-- The type of the external extendable-output primitive behind the
`sha3`/`ascon-hash` crates: `xofF x input n` is the `n`-byte digest of
`input` under the XOF variant `x`.  The real primitive always returns the
requested number of bytes; theorems that need this take it as a
hypothesis. -/
def XofFn : Type := Xof → List Nat → Nat → List Nat

/-- The byte count of `Xdrbg::encode`'s length field:
`1` when the encoded value is `0`, otherwise the minimal number of bytes
holding its binary representation (`bit length / 8` rounded up, where the
bit length of `v > 0` is `Nat.log2 v + 1`). -/
def encodeNumBytes (v : Nat) : Nat :=
  if v = 0 then 1 else (Nat.log2 v + 1 + 7) / 8

/-- A value written as `n` big-endian bytes, as built by the loop of
`Xdrbg::encode` (`(v >> (8 * (n - i - 1))) & 0xFF` at index `i`). -/
def beBytes (n v : Nat) : List Nat :=
  (List.range n).map (fun i => (v >>> (8 * (n - i - 1))) % 256)

/-- `Xdrbg::encode`: append to `seed ‖ alpha` the minimal big-endian byte
representation of `value_n * 85 + len(alpha)`. -/
def encode (seed alpha : List Nat) (valueN : Nat) : List Nat :=
  let computedParam := valueN * 85 + alpha.length
  seed ++ alpha ++ beBytes (encodeNumBytes computedParam) computedParam

/-- `Xdrbg::generate_output`: read `totalOutputLength` bytes of XOF digest
over the encoded input. -/
def generateOutput (xofF : XofFn) (x : Xof) (encodedBytes : List Nat)
    (totalOutputLength : Nat) : List Nat :=
  xofF x encodedBytes totalOutputLength

/-- `Xdrbg::xdrbg_instantiate`: an absent alpha defaults to the empty
sequence; after the parameter checks the initial state is `state_size`
bytes of XOF output over `encode(seed, alpha, 0)`. -/
def xdrbgInstantiate (xofF : XofFn) (x : Xof) (seed : List Nat)
    (alpha : Option (List Nat)) : Except Errors (List Nat) :=
  let alphaVal := alpha.getD []
  match x.areParamsOkay seed alphaVal XdrbgOps.Instantiate with
  | .ok _ => .ok (generateOutput xofF x (encode seed alphaVal 0) x.stateSize)
  | .error e => .error e

/-- `Xdrbg::xdrbg_reseed`: `state_size` bytes of XOF output over
`encode(state ‖ seed, alpha, 1)`. -/
def xdrbgReseed (xofF : XofFn) (x : Xof) (currentXdrbgState seed : List Nat)
    (alpha : Option (List Nat)) : Except Errors (List Nat) :=
  let alphaVal := alpha.getD []
  match x.areParamsOkay seed alphaVal XdrbgOps.Reseed with
  | .ok _ =>
      .ok (generateOutput xofF x (encode (currentXdrbgState ++ seed) alphaVal 1)
            x.stateSize)
  | .error e => .error e

/-- `Xdrbg::xdrbg_generate`: `output_key_length + state_size` bytes of XOF
output over `encode(state, alpha, 2)`, split into (new state, output). -/
def xdrbgGenerate (xofF : XofFn) (x : Xof) (currentXdrbgState : List Nat)
    (outputKeyLength : Nat) (alpha : Option (List Nat)) :
    Except Errors (List Nat × List Nat) :=
  let alphaVal := alpha.getD []
  match x.isOutputLengthOkay outputKeyLength with
  | .ok _ =>
      let totalOutput :=
        generateOutput xofF x (encode currentXdrbgState alphaVal 2)
          (outputKeyLength + x.stateSize)
      .ok (totalOutput.take x.stateSize, totalOutput.drop x.stateSize)
  | .error e => .error e

/-! ### Storage (`key_chains/storage_handler.rs`)

The three `HashMap`s are modelled as association lists observed through
first-match lookup; `HashMap::insert` prepends the new binding, so lookup
sees the most recent one.  The per-map `Mutex` has no sequential content. -/

/-- First-match association lookup, the observable behaviour of
`HashMap::get`. -/
def assocFind {κ : Type} [DecidableEq κ] (k : κ) :
    List (κ × List Nat) → Option (List Nat)
  | [] => none
  | (k', v) :: rest => if k' = k then some v else assocFind k rest

/-- The `KeyChainType` enum of `storage_handler.rs`. -/
inductive KeyChainType where
  | HkdfKeyChain
  | PrgKeyChain
  | XdrbgKeyChain
  deriving DecidableEq

/-- The `DefaultStorage` struct: one optional map per key-chain kind. -/
structure DefaultStorage where
  hkdfMap : Option (List (HashFunc × List Nat))
  prgMap : Option (List (Nat × List Nat))
  xdrbgMap : Option (List (Xof × List Nat))
  deriving DecidableEq

/-- `DefaultStorage::new`: exactly the map of the requested kind is
initialized (empty); the other two stay `None`. -/
def DefaultStorage.new (keyChainType : KeyChainType) : DefaultStorage :=
  match keyChainType with
  | KeyChainType.HkdfKeyChain => ⟨some [], none, none⟩
  | KeyChainType.PrgKeyChain => ⟨none, some [], none⟩
  | KeyChainType.XdrbgKeyChain => ⟨none, none, some []⟩

/-- `store_state_for_hkdf_keychain`: insert into the HKDF map when it is
initialized, otherwise do nothing (the Rust method returns `()`). -/
def DefaultStorage.storeStateForHkdfKeychain (s : DefaultStorage)
    (stateOfKeyChain : List Nat) (hashFunc : HashFunc) : DefaultStorage :=
  match s.hkdfMap with
  | some m => { s with hkdfMap := some ((hashFunc, stateOfKeyChain) :: m) }
  | none => s

/-- `store_state_for_prg_keychain`. -/
def DefaultStorage.storeStateForPrgKeychain (s : DefaultStorage)
    (stateOfKeyChain : List Nat) (securityParamLambda : Nat) : DefaultStorage :=
  match s.prgMap with
  | some m => { s with prgMap := some ((securityParamLambda, stateOfKeyChain) :: m) }
  | none => s

/-- `store_state_for_xdrbg_keychain`. -/
def DefaultStorage.storeStateForXdrbgKeychain (s : DefaultStorage)
    (stateOfKeyChain : List Nat) (xof : Xof) : DefaultStorage :=
  match s.xdrbgMap with
  | some m => { s with xdrbgMap := some ((xof, stateOfKeyChain) :: m) }
  | none => s

/-- `fetch_hkdf_keychain_state`. -/
def DefaultStorage.fetchHkdfKeychainState (s : DefaultStorage)
    (hashFunc : HashFunc) : Except Errors (List Nat) :=
  match s.hkdfMap with
  | some m =>
      match assocFind hashFunc m with
      | some st => .ok st
      | none =>
          .error (.NoStoredState ("No Hkdf state found for " ++ hashFunc.debugName))
  | none => .error (.UninitializedStorage "Hkdf Keychain storage not initialized")

/-- `fetch_prg_keychain_state`. -/
def DefaultStorage.fetchPrgKeychainState (s : DefaultStorage)
    (securityParamLambda : Nat) : Except Errors (List Nat) :=
  match s.prgMap with
  | some m =>
      match assocFind securityParamLambda m with
      | some st => .ok st
      | none =>
          .error (.NoStoredState
            ("No Prg state found for lambda " ++ toString securityParamLambda))
  | none => .error (.UninitializedStorage "Prg keychain storage not initialized")

/-- `fetch_xdrbg_keychain_state`. -/
def DefaultStorage.fetchXdrbgKeychainState (s : DefaultStorage) (xof : Xof) :
    Except Errors (List Nat) :=
  match s.xdrbgMap with
  | some m =>
      match assocFind xof m with
      | some st => .ok st
      | none =>
          .error (.NoStoredState ("No Xdrbg state found for " ++ xof.debugName))
  | none => .error (.UninitializedStorage "Xdrbg keychain storage not initialized")

/-! ### HKDF key-chain facade (`key_chains/hkdf_keychain.rs`)

The `Arc<dyn Storage>` handle is modelled as an optional `DefaultStorage`
value threaded functionally: operations that store return the updated
storage alongside their results. -/

/-- The `HkdfKeyChain` struct. -/
structure HkdfKeyChain where
  hashFunc : HashFunc
  outputKeyLength : Nat
  stateLength : Nat
  storePersistently : Bool
  storage : Option DefaultStorage

/-- `HkdfKeyChain::new`: persistence defaults to `false`; persistence
without a storage handle is a construction-time `UninitializedStorage`
error. -/
def HkdfKeyChain.new (hashFunc : HashFunc) (outputKeyLength : Option Nat)
    (storePersistently : Option Bool) (storage : Option DefaultStorage) :
    Except Errors HkdfKeyChain :=
  if storePersistently.getD false then
    match storage with
    | some st =>
        .ok ⟨hashFunc, outputKeyLength.getD hashFunc.outputSize,
          hashFunc.outputSize, storePersistently.getD false, some st⟩
    | none => .error (.UninitializedStorage "Hkdf keychain storage not initialized.")
  else
    .ok ⟨hashFunc, outputKeyLength.getD hashFunc.outputSize,
      hashFunc.outputSize, storePersistently.getD false, none⟩

/-- `HkdfKeyChain::key_chain_instantiate`: extract over the initial key
material, then expand to exactly `state_length` bytes. -/
def HkdfKeyChain.keyChainInstantiate (c : HkdfKeyChain) (hmac : HmacFn)
    (initialSkm : List Nat) (extractorSalt infoParam : Option (List Nat)) :
    Except Errors (List Nat) :=
  match hkdfExtract hmac c.hashFunc extractorSalt initialSkm with
  | .ok pseudoRandomKey =>
      hkdfExpand hmac c.hashFunc pseudoRandomKey infoParam c.stateLength
  | .error e => .error e

/-- `HkdfKeyChain::key_chain_update`: extract over `input ‖ state`, expand
to `state_length + output_key_length` bytes, split at `state_length`, and
store the new state when persistence is on.  Returns the updated storage
as a third component. -/
def HkdfKeyChain.keyChainUpdate (c : HkdfKeyChain) (hmac : HmacFn)
    (arbitraryInputParam keychainState : List Nat)
    (extractorSalt infoParam : Option (List Nat)) :
    Except Errors (List Nat × List Nat × Option DefaultStorage) :=
  let sourceKeyMaterial := arbitraryInputParam ++ keychainState
  match hkdfExtract hmac c.hashFunc extractorSalt sourceKeyMaterial with
  | .ok pseudoRandomKey =>
      match hkdfExpand hmac c.hashFunc pseudoRandomKey infoParam
              (c.stateLength + c.outputKeyLength) with
      | .ok totalOutput =>
          let newStateOfKeyChain := totalOutput.take c.stateLength
          let randomOutput := totalOutput.drop c.stateLength
          let storageAfter :=
            if c.storePersistently then
              c.storage.map
                (fun s => s.storeStateForHkdfKeychain newStateOfKeyChain c.hashFunc)
            else c.storage
          .ok (newStateOfKeyChain, randomOutput, storageAfter)
      | .error e => .error e
  | .error e => .error e

/-! ### PRG key-chain facade (`key_chains/prg_keychain.rs`) -/

/-- The `PrgKeyChain` struct. -/
structure PrgKeyChain where
  securityParamLambda : Nat
  storePersistently : Bool
  initState : List Nat
  storage : Option DefaultStorage

/-- `PrgKeyChain::new`: the initial state is an all-zero buffer of
`security_param_lambda` bytes; the persistence guard mirrors the HKDF
facade. -/
def PrgKeyChain.new (securityParamLambda : Nat) (storePersistently : Option Bool)
    (storage : Option DefaultStorage) : Except Errors PrgKeyChain :=
  if storePersistently.getD false then
    match storage with
    | some st =>
        .ok ⟨securityParamLambda, storePersistently.getD false,
          List.replicate securityParamLambda 0, some st⟩
    | none => .error (.UninitializedStorage "Prg keychain storage not initialized.")
  else
    .ok ⟨securityParamLambda, storePersistently.getD false,
      List.replicate securityParamLambda 0, none⟩

/-- `PrgKeyChain::key_chain_instantiate`: refresh the all-zero initial
state with the seed. -/
def PrgKeyChain.keyChainInstantiate (c : PrgKeyChain) (enc : BlockEncFn)
    (seedForPrgRefreshing : List Nat) : Except Errors (List Nat) :=
  prgRefresh enc c.securityParamLambda c.initState seedForPrgRefreshing

/-- `PrgKeyChain::key_chain_update`: refresh with the input, then run the
`Next` step; returns (new state, random output) — in that order — plus the
updated storage. -/
def PrgKeyChain.keyChainUpdate (c : PrgKeyChain) (enc : BlockEncFn)
    (arbitraryInputParam keychainState : List Nat) :
    Except Errors (List Nat × List Nat × Option DefaultStorage) :=
  match prgRefresh enc c.securityParamLambda keychainState arbitraryInputParam with
  | .error e => .error e
  | .ok refreshedPrgState =>
      match prgNext enc c.securityParamLambda refreshedPrgState with
      | .error e => .error e
      | .ok (randomOutput, newStateOfKeyChain) =>
          let storageAfter :=
            if c.storePersistently then
              c.storage.map
                (fun s => s.storeStateForPrgKeychain newStateOfKeyChain
                  c.securityParamLambda)
            else c.storage
          .ok (newStateOfKeyChain, randomOutput, storageAfter)

/-! ### XDRBG key-chain facade (`key_chains/xdrbg_keychain.rs`) -/

/-- The `XdrbgKeyChain` struct. -/
structure XdrbgKeyChain where
  xof : Xof
  outputKeyLength : Nat
  storePersistently : Bool
  storage : Option DefaultStorage

/-- `XdrbgKeyChain::new`: the output length defaults to the XOF's state
size; the persistence guard mirrors the other facades. -/
def XdrbgKeyChain.new (chosenXof : Xof) (outputKeyLength : Option Nat)
    (storePersistently : Option Bool) (storage : Option DefaultStorage) :
    Except Errors XdrbgKeyChain :=
  if storePersistently.getD false then
    match storage with
    | some st =>
        .ok ⟨chosenXof, outputKeyLength.getD chosenXof.stateSize,
          storePersistently.getD false, some st⟩
    | none => .error (.UninitializedStorage "Xdrbg keychain storage not initialized.")
  else
    .ok ⟨chosenXof, outputKeyLength.getD chosenXof.stateSize,
      storePersistently.getD false, none⟩

/-- `XdrbgKeyChain::key_chain_instantiate`. -/
def XdrbgKeyChain.keyChainInstantiate (c : XdrbgKeyChain) (xofF : XofFn)
    (seed : List Nat) (alpha : Option (List Nat)) : Except Errors (List Nat) :=
  xdrbgInstantiate xofF c.xof seed alpha

/-- `XdrbgKeyChain::key_chain_update`: reseed with the input, then
generate `output_key_length` bytes; plus the updated storage. -/
def XdrbgKeyChain.keyChainUpdate (c : XdrbgKeyChain) (xofF : XofFn)
    (arbitraryInputParam keychainState : List Nat)
    (alphaReseed alphaGenerate : Option (List Nat)) :
    Except Errors (List Nat × List Nat × Option DefaultStorage) :=
  match xdrbgReseed xofF c.xof keychainState arbitraryInputParam alphaReseed with
  | .error e => .error e
  | .ok reseededXdrbgState =>
      match xdrbgGenerate xofF c.xof reseededXdrbgState c.outputKeyLength
              alphaGenerate with
      | .error e => .error e
      | .ok (newStateOfKeyChain, randomOutput) =>
          let storageAfter :=
            if c.storePersistently then
              c.storage.map
                (fun s => s.storeStateForXdrbgKeychain newStateOfKeyChain c.xof)
            else c.storage
          .ok (newStateOfKeyChain, randomOutput, storageAfter)

/-! ### Concrete stand-ins for the external primitives, used by witnesses -/

/-- A concrete stand-in for the HMAC primitive with the correct output
size (the all-zero tag). -/
def hmacZeros : HmacFn := fun hf _ _ => List.replicate hf.outputSize 0

/-- A concrete stand-in for the AES block encryption primitive with the
correct block size (the all-zero block). -/
def encZeros : BlockEncFn := fun _ _ => List.replicate 16 0

/-- A concrete stand-in for the XOF primitive with the correct output
size (the all-zero digest). -/
def xofZeros : XofFn := fun _ _ n => List.replicate n 0

/-! ### Helper lemmas -/

theorem hkdfExpandStream_length (hmac : HmacFn) (hf : HashFunc) (prk info : List Nat)
    (hlen : ∀ hf2 k m, (hmac hf2 k m).length = hf2.outputSize) :
    ∀ (k i : Nat) (prev : List Nat),
      (hkdfExpandStream hmac hf prk info k i prev).length = k * hf.outputSize := by
  intro k
  induction k with
  | zero => intro i prev; simp [hkdfExpandStream]
  | succ k ih =>
      intro i prev
      simp only [hkdfExpandStream, List.length_append, hlen, ih]
      ring

theorem ctrKeystream_length (enc : BlockEncFn)
    (henc : ∀ k b, (enc k b).length = 16) (key iv : List Nat) :
    ∀ n, (ctrKeystream enc key iv n).length = 16 * n := by
  intro n
  induction n with
  | zero => simp [ctrKeystream]
  | succ k ih =>
      simp only [ctrKeystream, List.range_succ, List.map_append, List.map_cons,
        List.map_nil, List.flatten_append, List.flatten_cons, List.flatten_nil,
        List.append_nil, List.length_append, henc] at ih ⊢
      omega

theorem zipWith_xor_zero :
    ∀ (n : Nat) (ks : List Nat),
      List.zipWith (fun a b => a ^^^ b) (List.replicate n 0) ks = ks.take n := by
  intro n
  induction n with
  | zero => intro ks; simp
  | succ k ih =>
      intro ks
      cases ks with
      | nil => simp
      | cons b bs => simp [List.replicate_succ, ih]

/-! ### Claim theorems -/

/-- C1: for every hash-function variant and every requested total output
length `L`, `hkdf_expand` fails with a length error if and only if `L`
exceeds `255 * digest_size` of that variant, and on success it returns
exactly `L` bytes.  (The PRK is assumed long enough for the underlying
crate's `from_prk` to accept it, which is the non-panicking domain.) -/
theorem hkdf_expand_length_bound (hmac : HmacFn)
    (hlen : ∀ hf2 k m, (hmac hf2 k m).length = hf2.outputSize)
    (hf : HashFunc) (prk : List Nat) (info : Option (List Nat)) (L : Nat)
    (hprk : fromPrkOk hf prk) :
    ((∃ msg, hkdfExpand hmac hf prk info L = .error (.InvalidLength msg)) ↔
        255 * hf.outputSize < L)
    ∧ (L ≤ 255 * hf.outputSize →
        ∃ out, hkdfExpand hmac hf prk info L = .ok out ∧ out.length = L) := by
  constructor
  · constructor
    · rintro ⟨msg, hmsg⟩
      by_contra hle
      push_neg at hle
      simp [hkdfExpand, HashFunc.isOutputLengthOkay, Nat.not_lt.mpr hle] at hmsg
    · intro hgt
      exact ⟨expandLenMsg hf L,
        by simp [hkdfExpand, HashFunc.isOutputLengthOkay, hgt]⟩
  · intro hle
    have hnot : ¬ (L > 255 * hf.outputSize) := Nat.not_lt.mpr hle
    have heq : hkdfExpand hmac hf prk info L =
        .ok ((hkdfExpandStream hmac hf prk (info.getD [])
              ((L + hf.outputSize - 1) / hf.outputSize) 1 []).take L) := by
      simp [hkdfExpand, HashFunc.isOutputLengthOkay, hnot]
    refine ⟨_, heq, ?_⟩
    rw [List.length_take, hkdfExpandStream_length hmac hf prk _ hlen]
    cases hf <;> simp only [HashFunc.outputSize] at hle ⊢ <;> omega

/-- Witness for C1 at the SHA-256 variant: a request of 8161 bytes fails
with the length error and a request of 8160 bytes succeeds with exactly
8160 bytes of output. -/
theorem hkdf_expand_length_bound_witness :
    (∀ hf2 k m, (hmacZeros hf2 k m).length = hf2.outputSize)
    ∧ fromPrkOk HashFunc.Sha256 (List.replicate 32 0)
    ∧ ((∃ msg, hkdfExpand hmacZeros HashFunc.Sha256 (List.replicate 32 0) none 8161
          = .error (.InvalidLength msg)) ↔ 255 * HashFunc.Sha256.outputSize < 8161)
    ∧ (8160 ≤ 255 * HashFunc.Sha256.outputSize →
        ∃ out, hkdfExpand hmacZeros HashFunc.Sha256 (List.replicate 32 0) none 8160
          = .ok out ∧ out.length = 8160) :=
  ⟨fun hf2 _ _ => by simp [hmacZeros],
   by simp [fromPrkOk, HashFunc.outputSize],
   (hkdf_expand_length_bound hmacZeros (fun hf2 _ _ => by simp [hmacZeros])
      HashFunc.Sha256 (List.replicate 32 0) none 8161
      (by simp [fromPrkOk, HashFunc.outputSize])).1,
   (hkdf_expand_length_bound hmacZeros (fun hf2 _ _ => by simp [hmacZeros])
      HashFunc.Sha256 (List.replicate 32 0) none 8160
      (by simp [fromPrkOk, HashFunc.outputSize])).2⟩

/-- A concrete HKDF key chain as built by
`HkdfKeyChain.new Sha256 none (some false) none`. -/
def hkdfChainPlain : HkdfKeyChain := ⟨HashFunc.Sha256, 32, 32, false, none⟩

/-- C3 counterexample: with a 33-byte salt on the SHA-256 chain,
`key_chain_instantiate` fails, but the error is the `Errors::InvalidLength`
variant — there is no `InvalidSaltLength` variant on the error path (that
name exists only on the unused `HkdfError` enum of
`crypto_primitives/errors.rs`). -/
theorem hkdf_salt_error_variant_counterexample :
    (HkdfKeyChain.new HashFunc.Sha256 none (some false) none).bind
        (fun c => c.keyChainInstantiate hmacZeros (List.replicate 16 1)
          (some (List.replicate 33 0)) none)
      = .error (.InvalidLength (saltLenMsg HashFunc.Sha256 33))
    ∧ (Errors.InvalidLength (saltLenMsg HashFunc.Sha256 33)).rustName
        = "InvalidLength"
    ∧ (Errors.InvalidLength (saltLenMsg HashFunc.Sha256 33)).rustName
        ≠ "InvalidSaltLength" := by
  refine ⟨rfl, rfl, by decide⟩

/-- C3 (amended): for every salt longer than the digest size of the
configured hash function, HKDF `key_chain_instantiate` fails with the
`InvalidLength` length error (not an `InvalidSaltLength` variant); with an
absent salt it behaves as with an all-zero salt of exactly digest size and
succeeds. -/
theorem hkdf_keychain_salt_validation (hmac : HmacFn) (hf : HashFunc)
    (outLen : Option Nat) (sp : Option Bool) (st : Option DefaultStorage)
    (c : HkdfKeyChain) (hnew : HkdfKeyChain.new hf outLen sp st = .ok c)
    (ikm : List Nat) (info : Option (List Nat)) :
    (∀ salt, hf.outputSize < salt.length →
        c.keyChainInstantiate hmac ikm (some salt) info =
          .error (.InvalidLength (saltLenMsg hf salt.length)))
    ∧ c.keyChainInstantiate hmac ikm none info =
        c.keyChainInstantiate hmac ikm (some (List.replicate hf.outputSize 0)) info
    ∧ ∃ st0, c.keyChainInstantiate hmac ikm none info = .ok st0 := by
  have hfields : c.hashFunc = hf ∧ c.stateLength = hf.outputSize := by
    unfold HkdfKeyChain.new at hnew
    split at hnew
    · split at hnew
      · cases hnew; exact ⟨rfl, rfl⟩
      · cases hnew
    · cases hnew; exact ⟨rfl, rfl⟩
  obtain ⟨hhf, hsl⟩ := hfields
  have hboundOk : ¬ (c.stateLength > 255 * hf.outputSize) := by
    rw [hsl]
    cases hf <;> simp [HashFunc.outputSize]
  refine ⟨?_, ?_, ?_⟩
  · intro salt hsalt
    simp [HkdfKeyChain.keyChainInstantiate, hkdfExtract, HashFunc.checkAndGetSalt,
      hhf, hsalt]
  · simp [HkdfKeyChain.keyChainInstantiate, hkdfExtract, HashFunc.checkAndGetSalt,
      hhf]
  · refine ⟨(hkdfExpandStream hmac hf (hmac hf (List.replicate hf.outputSize 0) ikm)
        (info.getD []) ((c.stateLength + hf.outputSize - 1) / hf.outputSize) 1
        []).take c.stateLength, ?_⟩
    simp [HkdfKeyChain.keyChainInstantiate, hkdfExtract,
      HashFunc.checkAndGetSalt, hkdfExpand, HashFunc.isOutputLengthOkay, hhf,
      hboundOk]

/-- Witness for C3 (amended) on the SHA-256 chain: a 33-byte salt fails
with `InvalidLength`, an absent salt equals the all-zero 32-byte salt and
succeeds. -/
theorem hkdf_keychain_salt_validation_witness :
    HkdfKeyChain.new HashFunc.Sha256 none (some false) none = .ok hkdfChainPlain
    ∧ hkdfChainPlain.keyChainInstantiate hmacZeros (List.replicate 16 1)
        (some (List.replicate 33 0)) none
      = .error (.InvalidLength (saltLenMsg HashFunc.Sha256 (List.replicate 33 0).length))
    ∧ hkdfChainPlain.keyChainInstantiate hmacZeros (List.replicate 16 1) none none
      = hkdfChainPlain.keyChainInstantiate hmacZeros (List.replicate 16 1)
          (some (List.replicate HashFunc.Sha256.outputSize 0)) none
    ∧ ∃ st0, hkdfChainPlain.keyChainInstantiate hmacZeros (List.replicate 16 1)
        none none = .ok st0 :=
  ⟨rfl,
   (hkdf_keychain_salt_validation hmacZeros HashFunc.Sha256 none (some false) none
      hkdfChainPlain rfl (List.replicate 16 1) none).1 (List.replicate 33 0)
      (by simp [HashFunc.outputSize]),
   (hkdf_keychain_salt_validation hmacZeros HashFunc.Sha256 none (some false) none
      hkdfChainPlain rfl (List.replicate 16 1) none).2.1,
   (hkdf_keychain_salt_validation hmacZeros HashFunc.Sha256 none (some false) none
      hkdfChainPlain rfl (List.replicate 16 1) none).2.2⟩

theorem prgKeyChain_new_fields {lam : Nat} {sp : Option Bool}
    {st : Option DefaultStorage} {c : PrgKeyChain}
    (h : PrgKeyChain.new lam sp st = .ok c) :
    c.securityParamLambda = lam ∧ c.initState = List.replicate lam 0 := by
  unfold PrgKeyChain.new at h
  split at h
  · split at h
    · cases h; exact ⟨rfl, rfl⟩
    · cases h
  · cases h; exact ⟨rfl, rfl⟩

/-- C2: for keys of length 16, 24 or 32 bytes the PRG engine encrypts an
all-zero plaintext of `2 * security_parameter` bytes in counter mode (so
the ciphertext is the leading `2λ` bytes of the keystream), with the IV
formed by a fixed 96-bit nonce — distinct for refresh and next —
concatenated with the 32-bit big-endian counter value 1; `prg_refresh`
returns the first `λ` bytes, `prg_next` splits the `2λ` bytes into
(random output, new state), and the facade's `key_chain_update` returns
the new state first and the random output second. -/
theorem prg_counter_mode_engine (enc : BlockEncFn)
    (henc : ∀ k b, (enc k b).length = 16) (lam : Nat) :
    nonceForPrgRefresh ≠ nonceForPrgNext
    ∧ nonceForPrgRefresh.length = 12 ∧ nonceForPrgNext.length = 12
    ∧ ([0, 0, 0, 1] : List Nat) = beBytes 4 1
    ∧ (∀ key, key.length = 16 ∨ key.length = 24 ∨ key.length = 32 →
        ctrEncrypt enc key (nonceForPrgNext ++ [0, 0, 0, 1])
            (List.replicate (2 * lam) 0)
          = (ctrKeystream enc key (nonceForPrgNext ++ [0, 0, 0, 1])
              ((2 * lam + 15) / 16)).take (2 * lam)
        ∧ (ctrEncrypt enc key (nonceForPrgNext ++ [0, 0, 0, 1])
            (List.replicate (2 * lam) 0)).length = 2 * lam
        ∧ prgNext enc lam key =
            .ok ((ctrEncrypt enc key (nonceForPrgNext ++ [0, 0, 0, 1])
                   (List.replicate (2 * lam) 0)).take lam,
                 (ctrEncrypt enc key (nonceForPrgNext ++ [0, 0, 0, 1])
                   (List.replicate (2 * lam) 0)).drop lam))
    ∧ (∀ state param, state.length = param.length →
        (state.length = 16 ∨ state.length = 24 ∨ state.length = 32) →
        prgRefresh enc lam state param =
          .ok ((ctrEncrypt enc (List.zipWith (fun a b => a ^^^ b) state param)
                 (nonceForPrgRefresh ++ [0, 0, 0, 1])
                 (List.replicate (2 * lam) 0)).take lam))
    ∧ (∀ sp st c input state rs ro ns,
        PrgKeyChain.new lam sp st = .ok c →
        prgRefresh enc lam state input = .ok rs →
        prgNext enc lam rs = .ok (ro, ns) →
        ∃ stor, c.keyChainUpdate enc input state = .ok (ns, ro, stor)) := by
  refine ⟨by decide, rfl, rfl, by decide, ?_, ?_, ?_⟩
  · intro key hkey
    have hct : ctrEncrypt enc key (nonceForPrgNext ++ [0, 0, 0, 1])
        (List.replicate (2 * lam) 0)
      = (ctrKeystream enc key (nonceForPrgNext ++ [0, 0, 0, 1])
          ((2 * lam + 15) / 16)).take (2 * lam) := by
      simp [ctrEncrypt, zipWith_xor_zero]
    refine ⟨hct, ?_, ?_⟩
    · rw [hct, List.length_take,
        ctrKeystream_length enc henc key (nonceForPrgNext ++ [0, 0, 0, 1])]
      omega
    · simp [prgNext, aesInCounterModeAsPrg, hkey]
  · intro state param hlen hset
    have hx : xorBytes state param =
        .ok (List.zipWith (fun a b => a ^^^ b) state param) := by
      simp [xorBytes, hlen]
    have hxl : (List.zipWith (fun a b => a ^^^ b) state param).length = state.length := by
      rw [List.length_zipWith, hlen, Nat.min_self]
    simp [prgRefresh, hx, aesInCounterModeAsPrg, hxl, hset]
  · intro sp st c input state rs ro ns hnew hrefresh hnext
    obtain ⟨hlam, _⟩ := prgKeyChain_new_fields hnew
    refine ⟨if c.storePersistently then
        c.storage.map (fun s => s.storeStateForPrgKeychain ns c.securityParamLambda)
      else c.storage, ?_⟩
    simp [PrgKeyChain.keyChainUpdate, hlam, hrefresh, hnext]

/-- A concrete PRG key chain as built by `PrgKeyChain.new 16 none none`. -/
def prgChainPlain : PrgKeyChain := ⟨16, false, List.replicate 16 0, none⟩

/-- Witness for C2 with `λ = 16`: `prg_next` on a 16-byte key, `prg_refresh`
on matching 16-byte inputs, and a facade update round with the all-zero
block cipher stand-in. -/
theorem prg_counter_mode_engine_witness :
    (∀ k b, (encZeros k b).length = 16)
    ∧ prgNext encZeros 16 (List.replicate 16 7) =
        .ok ((ctrEncrypt encZeros (List.replicate 16 7)
               (nonceForPrgNext ++ [0, 0, 0, 1]) (List.replicate (2 * 16) 0)).take 16,
             (ctrEncrypt encZeros (List.replicate 16 7)
               (nonceForPrgNext ++ [0, 0, 0, 1]) (List.replicate (2 * 16) 0)).drop 16)
    ∧ prgRefresh encZeros 16 (List.replicate 16 3) (List.replicate 16 3) =
        .ok ((ctrEncrypt encZeros
               (List.zipWith (fun a b => a ^^^ b) (List.replicate 16 3)
                 (List.replicate 16 3))
               (nonceForPrgRefresh ++ [0, 0, 0, 1])
               (List.replicate (2 * 16) 0)).take 16)
    ∧ ∃ stor, prgChainPlain.keyChainUpdate encZeros (List.replicate 16 1)
        (List.replicate 16 2) = .ok (List.replicate 16 0, List.replicate 16 0, stor) := by
  have hencZ : ∀ k b, (encZeros k b).length = 16 := fun _ _ => by simp [encZeros]
  refine ⟨hencZ, ?_, ?_, ?_⟩
  · exact ((prg_counter_mode_engine encZeros hencZ 16).2.2.2.2.1
      (List.replicate 16 7) (by simp)).2.2
  · exact (prg_counter_mode_engine encZeros hencZ 16).2.2.2.2.2.1
      (List.replicate 16 3) (List.replicate 16 3) rfl (by simp)
  · exact (prg_counter_mode_engine encZeros hencZ 16).2.2.2.2.2.2
      none none prgChainPlain (List.replicate 16 1) (List.replicate 16 2)
      (List.replicate 16 0) (List.replicate 16 0) (List.replicate 16 0)
      rfl (by rfl) (by rfl)

/-- C6: PRG `key_chain_instantiate seed` returns exactly the result of
`prg_refresh` applied to an all-zero state of `security_parameter` bytes
and that seed, errors included. -/
theorem prg_instantiate_is_refresh_of_zero (enc : BlockEncFn) (lam : Nat)
    (sp : Option Bool) (st : Option DefaultStorage) (c : PrgKeyChain)
    (hnew : PrgKeyChain.new lam sp st = .ok c) (seed : List Nat) :
    c.keyChainInstantiate enc seed =
      prgRefresh enc lam (List.replicate lam 0) seed := by
  obtain ⟨hlam, hinit⟩ := prgKeyChain_new_fields hnew
  rw [PrgKeyChain.keyChainInstantiate, hlam, hinit]

/-- Witness for C6 with `λ = 16`: a well-sized seed and a wrongly sized
seed (where both sides return the same error). -/
theorem prg_instantiate_is_refresh_of_zero_witness :
    PrgKeyChain.new 16 none none = .ok prgChainPlain
    ∧ prgChainPlain.keyChainInstantiate encZeros (List.replicate 16 9)
        = prgRefresh encZeros 16 (List.replicate 16 0) (List.replicate 16 9)
    ∧ prgChainPlain.keyChainInstantiate encZeros (List.replicate 3 9)
        = prgRefresh encZeros 16 (List.replicate 16 0) (List.replicate 3 9) :=
  ⟨rfl,
   prg_instantiate_is_refresh_of_zero encZeros 16 none none prgChainPlain rfl
     (List.replicate 16 9),
   prg_instantiate_is_refresh_of_zero encZeros 16 none none prgChainPlain rfl
     (List.replicate 3 9)⟩

/-- C7: `prg_next` with a state whose length is not 16, 24 or 32 bytes
fails with `InvalidInputKeyLength`, as does `prg_refresh` when the
extracted parameter has the same (invalid) length; with 16-, 24- or
32-byte states both succeed; `prg_refresh` with inputs of unequal lengths
fails with `XORLengthMismatch`. -/
theorem prg_key_length_enforcement (enc : BlockEncFn) (lam : Nat) :
    (∀ key, ¬(key.length = 16 ∨ key.length = 24 ∨ key.length = 32) →
        prgNext enc lam key = .error (.InvalidInputKeyLength (keyLenMsg key.length)))
    ∧ (∀ state param, state.length = param.length →
        ¬(state.length = 16 ∨ state.length = 24 ∨ state.length = 32) →
        prgRefresh enc lam state param =
          .error (.InvalidInputKeyLength (keyLenMsg state.length)))
    ∧ (∀ key, (key.length = 16 ∨ key.length = 24 ∨ key.length = 32) →
        ∃ p, prgNext enc lam key = .ok p)
    ∧ (∀ state param, state.length = param.length →
        (state.length = 16 ∨ state.length = 24 ∨ state.length = 32) →
        ∃ o, prgRefresh enc lam state param = .ok o)
    ∧ (∀ state param, state.length ≠ param.length →
        prgRefresh enc lam state param =
          .error (.XORLengthMismatch "Cannot XOR bytes of unequal length.")) := by
  have hxor : ∀ state param : List Nat, state.length = param.length →
      xorBytes state param = .ok (List.zipWith (fun a b => a ^^^ b) state param) := by
    intro state param hlen; simp [xorBytes, hlen]
  have hxorlen : ∀ state param : List Nat, state.length = param.length →
      (List.zipWith (fun a b => a ^^^ b) state param).length = state.length := by
    intro state param hlen; rw [List.length_zipWith, hlen, Nat.min_self]
  refine ⟨?_, ?_, ?_, ?_, ?_⟩
  · intro key hkey
    simp [prgNext, aesInCounterModeAsPrg, hkey]
  · intro state param hlen hset
    simp [prgRefresh, hxor state param hlen, aesInCounterModeAsPrg,
      hxorlen state param hlen, hset]
  · intro key hkey
    refine ⟨((ctrEncrypt enc key (nonceForPrgNext ++ [0, 0, 0, 1])
        (List.replicate (2 * lam) 0)).take lam,
      (ctrEncrypt enc key (nonceForPrgNext ++ [0, 0, 0, 1])
        (List.replicate (2 * lam) 0)).drop lam), ?_⟩
    simp [prgNext, aesInCounterModeAsPrg, hkey]
  · intro state param hlen hset
    refine ⟨(ctrEncrypt enc (List.zipWith (fun a b => a ^^^ b) state param)
        (nonceForPrgRefresh ++ [0, 0, 0, 1])
        (List.replicate (2 * lam) 0)).take lam, ?_⟩
    simp [prgRefresh, hxor state param hlen, aesInCounterModeAsPrg,
      hxorlen state param hlen, hset]
  · intro state param hne
    simp [prgRefresh, xorBytes, hne]

/-- Witness for C7 with `λ = 16`: failing lengths 15 (next) and 33
(refresh), succeeding lengths 24 (next) and 32 (refresh), and a 16/24
length mismatch on refresh. -/
theorem prg_key_length_enforcement_witness :
    prgNext encZeros 16 (List.replicate 15 0)
      = .error (.InvalidInputKeyLength (keyLenMsg (List.replicate 15 0).length))
    ∧ prgRefresh encZeros 16 (List.replicate 33 0) (List.replicate 33 5)
      = .error (.InvalidInputKeyLength (keyLenMsg (List.replicate 33 0).length))
    ∧ (∃ p, prgNext encZeros 16 (List.replicate 24 0) = .ok p)
    ∧ (∃ o, prgRefresh encZeros 16 (List.replicate 32 0) (List.replicate 32 5) = .ok o)
    ∧ prgRefresh encZeros 16 (List.replicate 16 0) (List.replicate 24 0)
      = .error (.XORLengthMismatch "Cannot XOR bytes of unequal length.") :=
  ⟨(prg_key_length_enforcement encZeros 16).1 (List.replicate 15 0) (by simp),
   (prg_key_length_enforcement encZeros 16).2.1 (List.replicate 33 0)
     (List.replicate 33 5) (by simp) (by simp),
   (prg_key_length_enforcement encZeros 16).2.2.1 (List.replicate 24 0) (by simp),
   (prg_key_length_enforcement encZeros 16).2.2.2.1 (List.replicate 32 0)
     (List.replicate 32 5) (by simp) (by simp),
   (prg_key_length_enforcement encZeros 16).2.2.2.2 (List.replicate 16 0)
     (List.replicate 24 0) (by simp)⟩

theorem encode_instantiate (seed alpha : List Nat) (h : alpha.length ≤ 84) :
    encode seed alpha 0 = seed ++ alpha ++ [alpha.length] := by
  unfold encode
  simp only [Nat.zero_mul, Nat.zero_add]
  have hnb : encodeNumBytes alpha.length = 1 := by
    unfold encodeNumBytes
    by_cases h0 : alpha.length = 0
    · simp [h0]
    · have hlog : Nat.log2 alpha.length < 7 := by
        rw [Nat.log2_lt h0]
        omega
      simp only [h0, if_false]
      omega
  rw [hnb]
  unfold beBytes
  simp [List.range_succ, List.range_zero, Nat.shiftRight_zero,
    Nat.mod_eq_of_lt (by omega : alpha.length < 256)]

/-- C4: for a seed of at least the variant's minimum instantiate seed size
(24 bytes for Shake128 and Ascon, 48 for Shake256) and an alpha of at most
84 bytes, XDRBG instantiate returns exactly the first `state_size` bytes
(32/64/32 per variant) of XOF output over `seed ‖ alpha ‖ E`, where `E` is
the minimal big-endian representation of `0 * 85 + len(alpha)` — the
single byte `[len(alpha)]`, also when that value is 0; a shorter seed or a
longer alpha fails with a length error. -/
theorem xdrbg_instantiate_spec (xofF : XofFn)
    (hxof : ∀ x2 inp n, (xofF x2 inp n).length = n) (x : Xof) :
    (Xof.Shake128.minSeedSizeInstantiate = 24 ∧ Xof.Ascon.minSeedSizeInstantiate = 24
      ∧ Xof.Shake256.minSeedSizeInstantiate = 48
      ∧ Xof.Shake128.stateSize = 32 ∧ Xof.Shake256.stateSize = 64
      ∧ Xof.Ascon.stateSize = 32)
    ∧ (∀ seed alpha, x.minSeedSizeInstantiate ≤ seed.length → alpha.length ≤ 84 →
        xdrbgInstantiate xofF x seed (some alpha)
          = .ok (xofF x (seed ++ alpha ++ [alpha.length]) x.stateSize)
        ∧ (xofF x (seed ++ alpha ++ [alpha.length]) x.stateSize).length = x.stateSize)
    ∧ (∀ seed alpha, seed.length < x.minSeedSizeInstantiate →
        xdrbgInstantiate xofF x seed (some alpha)
          = .error (.InvalidLength
              (seedLenMsg x seed.length x.minSeedSizeInstantiate XdrbgOps.Instantiate)))
    ∧ (∀ seed alpha, x.minSeedSizeInstantiate ≤ seed.length → 84 < alpha.length →
        xdrbgInstantiate xofF x seed (some alpha)
          = .error (.InvalidLength (alphaLenMsg alpha.length))) := by
  refine ⟨by simp [Xof.minSeedSizeInstantiate, Xof.stateSize], ?_, ?_, ?_⟩
  · intro seed alpha hseed halpha
    have hs : ¬ (seed.length < x.minSeedSizeInstantiate) := Nat.not_lt.mpr hseed
    have ha : ¬ (alpha.length > maxLenAlpha) := by
      unfold maxLenAlpha; omega
    refine ⟨?_, hxof x _ _⟩
    simp [xdrbgInstantiate, Xof.areParamsOkay, Xof.checkSizeOfSeed,
      Xof.checkSizeOfAlpha, generateOutput, hs, ha, encode_instantiate seed alpha halpha]
  · intro seed alpha hseed
    simp [xdrbgInstantiate, Xof.areParamsOkay, Xof.checkSizeOfSeed, hseed]
  · intro seed alpha hseed halpha
    have hs : ¬ (seed.length < x.minSeedSizeInstantiate) := Nat.not_lt.mpr hseed
    have ha : alpha.length > maxLenAlpha := by
      unfold maxLenAlpha; omega
    simp [xdrbgInstantiate, Xof.areParamsOkay, Xof.checkSizeOfSeed,
      Xof.checkSizeOfAlpha, hs, ha]

/-- Witness for C4 at the Shake256 variant: a 48-byte seed with a 3-byte
alpha succeeds with exactly 64 bytes of state, a 10-byte seed fails, and
an 85-byte alpha fails. -/
theorem xdrbg_instantiate_spec_witness :
    (∀ x2 inp n, (xofZeros x2 inp n).length = n)
    ∧ (xdrbgInstantiate xofZeros Xof.Shake256 (List.replicate 48 1)
          (some (List.replicate 3 2))
        = .ok (xofZeros Xof.Shake256
            (List.replicate 48 1 ++ List.replicate 3 2
              ++ [(List.replicate 3 2).length]) Xof.Shake256.stateSize)
       ∧ (xofZeros Xof.Shake256
            (List.replicate 48 1 ++ List.replicate 3 2
              ++ [(List.replicate 3 2).length]) Xof.Shake256.stateSize).length
          = Xof.Shake256.stateSize)
    ∧ xdrbgInstantiate xofZeros Xof.Shake256 (List.replicate 10 1) (some [])
        = .error (.InvalidLength
            (seedLenMsg Xof.Shake256 (List.replicate 10 1).length
              Xof.Shake256.minSeedSizeInstantiate XdrbgOps.Instantiate))
    ∧ xdrbgInstantiate xofZeros Xof.Shake256 (List.replicate 48 1)
          (some (List.replicate 85 0))
        = .error (.InvalidLength (alphaLenMsg (List.replicate 85 0).length)) := by
  have hx : ∀ x2 inp n, (xofZeros x2 inp n).length = n := fun _ _ n => by
    simp [xofZeros]
  refine ⟨hx, ?_, ?_, ?_⟩
  · exact (xdrbg_instantiate_spec xofZeros hx Xof.Shake256).2.1
      (List.replicate 48 1) (List.replicate 3 2)
      (by simp [Xof.minSeedSizeInstantiate]) (by simp)
  · exact (xdrbg_instantiate_spec xofZeros hx Xof.Shake256).2.2.1
      (List.replicate 10 1) [] (by simp [Xof.minSeedSizeInstantiate])
  · exact (xdrbg_instantiate_spec xofZeros hx Xof.Shake256).2.2.2
      (List.replicate 48 1) (List.replicate 85 0)
      (by simp [Xof.minSeedSizeInstantiate]) (by simp)

theorem hkdfKeyChain_new_fields {hf : HashFunc} {outLen : Option Nat}
    {sp : Option Bool} {st : Option DefaultStorage} {c : HkdfKeyChain}
    (h : HkdfKeyChain.new hf outLen sp st = .ok c) :
    c.hashFunc = hf ∧ c.outputKeyLength = outLen.getD hf.outputSize
    ∧ c.stateLength = hf.outputSize ∧ c.storePersistently = sp.getD false
    ∧ (sp.getD false = true → ∃ s0, st = some s0 ∧ c.storage = some s0) := by
  unfold HkdfKeyChain.new at h
  split at h
  · split at h
    · cases h; exact ⟨rfl, rfl, rfl, rfl, fun _ => ⟨_, rfl, rfl⟩⟩
    · cases h
  · next hsp =>
      cases h
      exact ⟨rfl, rfl, rfl, rfl, fun htrue => absurd htrue hsp⟩

theorem hkdfExpand_ok_length (hmac : HmacFn)
    (hlen : ∀ hf2 k m, (hmac hf2 k m).length = hf2.outputSize)
    (hf : HashFunc) (prk : List Nat) (info : Option (List Nat)) (L : Nat)
    (t : List Nat) (h : hkdfExpand hmac hf prk info L = .ok t) :
    t.length = L := by
  by_cases hc : L > 255 * hf.outputSize
  · simp [hkdfExpand, HashFunc.isOutputLengthOkay, hc] at h
  · simp [hkdfExpand, HashFunc.isOutputLengthOkay, hc] at h
    rw [← h, List.length_take, hkdfExpandStream_length hmac hf prk _ hlen]
    cases hf <;> simp only [HashFunc.outputSize] at hc ⊢ <;> omega

/-- C5: HKDF `key_chain_update` uses `input ‖ state` as the new key
material, performs extract then expand requesting exactly
`state_length + output_length` bytes, and returns the leading
`state_length` bytes as the new state and the trailing `output_length`
bytes as the output (errors of either stage are propagated). -/
theorem hkdf_keychain_update_spec (hmac : HmacFn)
    (hlen : ∀ hf2 k m, (hmac hf2 k m).length = hf2.outputSize)
    (hf : HashFunc) (outLen : Option Nat) (sp : Option Bool)
    (st : Option DefaultStorage) (c : HkdfKeyChain)
    (hnew : HkdfKeyChain.new hf outLen sp st = .ok c)
    (input state : List Nat) (salt info : Option (List Nat)) :
    (∀ e, hkdfExtract hmac hf salt (input ++ state) = .error e →
        c.keyChainUpdate hmac input state salt info = .error e)
    ∧ (∀ prk, hkdfExtract hmac hf salt (input ++ state) = .ok prk →
        (∀ e, hkdfExpand hmac hf prk info
              (hf.outputSize + outLen.getD hf.outputSize) = .error e →
            c.keyChainUpdate hmac input state salt info = .error e)
        ∧ (∀ t, hkdfExpand hmac hf prk info
              (hf.outputSize + outLen.getD hf.outputSize) = .ok t →
            ∃ st2, c.keyChainUpdate hmac input state salt info
                = .ok (t.take hf.outputSize, t.drop hf.outputSize, st2)
              ∧ (t.take hf.outputSize).length = hf.outputSize
              ∧ (t.drop hf.outputSize).length = outLen.getD hf.outputSize)) := by
  obtain ⟨hhf, hol, hsl, _, _⟩ := hkdfKeyChain_new_fields hnew
  constructor
  · intro e he
    simp [HkdfKeyChain.keyChainUpdate, hhf, he]
  · intro prk hex
    constructor
    · intro e he
      simp [HkdfKeyChain.keyChainUpdate, hhf, hsl, hol, hex, he]
    · intro t ht
      have htl : t.length = hf.outputSize + outLen.getD hf.outputSize :=
        hkdfExpand_ok_length hmac hlen hf prk info _ t ht
      refine ⟨if c.storePersistently then
          c.storage.map (fun s =>
            s.storeStateForHkdfKeychain (t.take hf.outputSize) c.hashFunc)
        else c.storage, ?_, ?_, ?_⟩
      · simp [HkdfKeyChain.keyChainUpdate, hhf, hsl, hol, hex, ht]
      · rw [List.length_take]; omega
      · rw [List.length_drop]; omega

/-- Witness for C5 on the plain SHA-256 chain: a concrete update run whose
result is the 64-byte expand output split into a 32-byte new state and a
32-byte output. -/
theorem hkdf_keychain_update_spec_witness :
    (∀ hf2 k m, (hmacZeros hf2 k m).length = hf2.outputSize)
    ∧ HkdfKeyChain.new HashFunc.Sha256 none (some false) none = .ok hkdfChainPlain
    ∧ ∃ st2, hkdfChainPlain.keyChainUpdate hmacZeros [1] [2] none none
        = .ok ((List.replicate 64 0).take 32, (List.replicate 64 0).drop 32, st2)
      ∧ ((List.replicate 64 0).take 32).length = HashFunc.Sha256.outputSize
      ∧ ((List.replicate 64 0).drop 32).length
          = (none : Option Nat).getD HashFunc.Sha256.outputSize := by
  have hz : ∀ hf2 k m, (hmacZeros hf2 k m).length = hf2.outputSize := fun _ _ _ => by
    simp [hmacZeros]
  exact ⟨hz, rfl,
    ((hkdf_keychain_update_spec hmacZeros hz HashFunc.Sha256 none (some false) none
        hkdfChainPlain rfl [1] [2] none none).2 (List.replicate 32 0) rfl).2
      (List.replicate 64 0) rfl⟩

/-- C8: constructing any of the three facades with persistence enabled and
no storage handle fails with `UninitializedStorage` at construction time
(the constructor is separate from every cryptographic operation); with
persistence disabled or unspecified (defaulting to false), construction
succeeds without a storage handle. -/
theorem facade_construction_guard (hf : HashFunc) (outLen : Option Nat)
    (lam : Nat) (x : Xof) (xoutLen : Option Nat) :
    HkdfKeyChain.new hf outLen (some true) none
      = .error (.UninitializedStorage "Hkdf keychain storage not initialized.")
    ∧ (∃ c, HkdfKeyChain.new hf outLen (some false) none = .ok c)
    ∧ (∃ c, HkdfKeyChain.new hf outLen none none = .ok c)
    ∧ PrgKeyChain.new lam (some true) none
      = .error (.UninitializedStorage "Prg keychain storage not initialized.")
    ∧ (∃ c, PrgKeyChain.new lam (some false) none = .ok c)
    ∧ (∃ c, PrgKeyChain.new lam none none = .ok c)
    ∧ XdrbgKeyChain.new x xoutLen (some true) none
      = .error (.UninitializedStorage "Xdrbg keychain storage not initialized.")
    ∧ (∃ c, XdrbgKeyChain.new x xoutLen (some false) none = .ok c)
    ∧ (∃ c, XdrbgKeyChain.new x xoutLen none none = .ok c) :=
  ⟨rfl, ⟨_, rfl⟩, ⟨_, rfl⟩, rfl, ⟨_, rfl⟩, ⟨_, rfl⟩, rfl, ⟨_, rfl⟩, ⟨_, rfl⟩⟩

/-- The fresh HKDF-kind default storage. -/
def storageHkdfFresh : DefaultStorage := DefaultStorage.new KeyChainType.HkdfKeyChain

/-- A concrete persistent HKDF key chain as built by
`HkdfKeyChain.new Sha256 none (some true) (some storageHkdfFresh)`. -/
def hkdfChainPersist : HkdfKeyChain :=
  ⟨HashFunc.Sha256, 32, 32, true, some storageHkdfFresh⟩

/-- C9: on a default storage configured for a kind, fetch after store
returns the stored state (the most recent binding for that identity);
fetch on a fresh storage fails with `NoStoredState`; and after a
successful persistent facade `update`, fetching that identity yields
exactly the returned `new_state`. -/
theorem storage_round_trip (hmac : HmacFn) :
    (∀ (s : DefaultStorage) (stv : List Nat) (hf : HashFunc), s.hkdfMap.isSome →
        (s.storeStateForHkdfKeychain stv hf).fetchHkdfKeychainState hf = .ok stv)
    ∧ (∀ (s : DefaultStorage) (stv : List Nat) (lam : Nat), s.prgMap.isSome →
        (s.storeStateForPrgKeychain stv lam).fetchPrgKeychainState lam = .ok stv)
    ∧ (∀ (s : DefaultStorage) (stv : List Nat) (x : Xof), s.xdrbgMap.isSome →
        (s.storeStateForXdrbgKeychain stv x).fetchXdrbgKeychainState x = .ok stv)
    ∧ (∀ hf, (DefaultStorage.new KeyChainType.HkdfKeyChain).fetchHkdfKeychainState hf
        = .error (.NoStoredState ("No Hkdf state found for " ++ hf.debugName)))
    ∧ (∀ lam, (DefaultStorage.new KeyChainType.PrgKeyChain).fetchPrgKeychainState lam
        = .error (.NoStoredState ("No Prg state found for lambda " ++ toString lam)))
    ∧ (∀ x, (DefaultStorage.new KeyChainType.XdrbgKeyChain).fetchXdrbgKeychainState x
        = .error (.NoStoredState ("No Xdrbg state found for " ++ x.debugName)))
    ∧ (∀ (hf : HashFunc) (outLen : Option Nat) (s : DefaultStorage)
          (c : HkdfKeyChain) (input state : List Nat)
          (salt info : Option (List Nat)) (ns out : List Nat)
          (st2 : Option DefaultStorage),
        s.hkdfMap.isSome →
        HkdfKeyChain.new hf outLen (some true) (some s) = .ok c →
        c.keyChainUpdate hmac input state salt info = .ok (ns, out, st2) →
        ∃ s2, st2 = some s2 ∧ s2.fetchHkdfKeychainState hf = .ok ns) := by
  have hstore : ∀ (s : DefaultStorage) (stv : List Nat) (hf : HashFunc),
      s.hkdfMap.isSome →
      (s.storeStateForHkdfKeychain stv hf).fetchHkdfKeychainState hf = .ok stv := by
    intro s stv hf hsome
    obtain ⟨m, hm⟩ := Option.isSome_iff_exists.mp hsome
    simp [DefaultStorage.storeStateForHkdfKeychain,
      DefaultStorage.fetchHkdfKeychainState, hm, assocFind]
  refine ⟨hstore, ?_, ?_, ?_, ?_, ?_, ?_⟩
  · intro s stv lam hsome
    obtain ⟨m, hm⟩ := Option.isSome_iff_exists.mp hsome
    simp [DefaultStorage.storeStateForPrgKeychain,
      DefaultStorage.fetchPrgKeychainState, hm, assocFind]
  · intro s stv x hsome
    obtain ⟨m, hm⟩ := Option.isSome_iff_exists.mp hsome
    simp [DefaultStorage.storeStateForXdrbgKeychain,
      DefaultStorage.fetchXdrbgKeychainState, hm, assocFind]
  · intro hf
    simp [DefaultStorage.new, DefaultStorage.fetchHkdfKeychainState, assocFind]
  · intro lam
    simp [DefaultStorage.new, DefaultStorage.fetchPrgKeychainState, assocFind]
  · intro x
    simp [DefaultStorage.new, DefaultStorage.fetchXdrbgKeychainState, assocFind]
  · intro hf outLen s c input state salt info ns out st2 hsome hnew hupd
    obtain ⟨hhf, hol, hsl, hsp, hstor⟩ := hkdfKeyChain_new_fields hnew
    obtain ⟨s0, hs0, hcs⟩ := hstor rfl
    cases hs0
    cases hex : hkdfExtract hmac c.hashFunc salt (input ++ state) with
    | error e => simp [HkdfKeyChain.keyChainUpdate, hex] at hupd
    | ok prk =>
        cases hexp : hkdfExpand hmac c.hashFunc prk info
            (c.stateLength + c.outputKeyLength) with
        | error e => simp [HkdfKeyChain.keyChainUpdate, hex, hexp] at hupd
        | ok t =>
            simp [HkdfKeyChain.keyChainUpdate, hex, hexp, hsp, hcs] at hupd
            obtain ⟨hns, _, hst2⟩ := hupd
            refine ⟨s.storeStateForHkdfKeychain (t.take c.stateLength) c.hashFunc,
              hst2.symm, ?_⟩
            rw [← hns, ← hhf]
            exact hstore s _ c.hashFunc hsome

/-- Witness for C9: a concrete persistent update on the SHA-256 chain with
a fresh HKDF storage; fetching afterwards returns the new state. -/
theorem storage_round_trip_witness :
    storageHkdfFresh.hkdfMap.isSome
    ∧ HkdfKeyChain.new HashFunc.Sha256 none (some true) (some storageHkdfFresh)
        = .ok hkdfChainPersist
    ∧ hkdfChainPersist.keyChainUpdate hmacZeros [1] [2] none none
        = .ok (List.replicate 32 0, List.replicate 32 0,
            some (storageHkdfFresh.storeStateForHkdfKeychain
              (List.replicate 32 0) HashFunc.Sha256))
    ∧ ∃ s2, (some (storageHkdfFresh.storeStateForHkdfKeychain
              (List.replicate 32 0) HashFunc.Sha256) : Option DefaultStorage)
          = some s2
        ∧ s2.fetchHkdfKeychainState HashFunc.Sha256 = .ok (List.replicate 32 0) :=
  ⟨rfl, rfl, rfl,
   (storage_round_trip hmacZeros).2.2.2.2.2.2 HashFunc.Sha256 none
     storageHkdfFresh hkdfChainPersist [1] [2] none none
     (List.replicate 32 0) (List.replicate 32 0)
     (some (storageHkdfFresh.storeStateForHkdfKeychain
       (List.replicate 32 0) HashFunc.Sha256)) rfl rfl rfl⟩

/-- C10: each `DefaultStorage` constructor initializes exactly one
key-chain kind; a store for an unconfigured kind is a silent no-op (the
Rust method returns unit, so it reports no error, and the storage value is
unchanged), while a fetch for an unconfigured kind fails with
`UninitializedStorage`. -/
theorem storage_single_kind (stv : List Nat) (hf : HashFunc) (lam : Nat) (x : Xof) :
    ((DefaultStorage.new KeyChainType.HkdfKeyChain).hkdfMap.isSome
      ∧ (DefaultStorage.new KeyChainType.HkdfKeyChain).prgMap = none
      ∧ (DefaultStorage.new KeyChainType.HkdfKeyChain).xdrbgMap = none)
    ∧ ((DefaultStorage.new KeyChainType.PrgKeyChain).prgMap.isSome
      ∧ (DefaultStorage.new KeyChainType.PrgKeyChain).hkdfMap = none
      ∧ (DefaultStorage.new KeyChainType.PrgKeyChain).xdrbgMap = none)
    ∧ ((DefaultStorage.new KeyChainType.XdrbgKeyChain).xdrbgMap.isSome
      ∧ (DefaultStorage.new KeyChainType.XdrbgKeyChain).hkdfMap = none
      ∧ (DefaultStorage.new KeyChainType.XdrbgKeyChain).prgMap = none)
    ∧ (∀ s : DefaultStorage, s.hkdfMap = none →
        s.storeStateForHkdfKeychain stv hf = s
        ∧ s.fetchHkdfKeychainState hf
            = .error (.UninitializedStorage "Hkdf Keychain storage not initialized"))
    ∧ (∀ s : DefaultStorage, s.prgMap = none →
        s.storeStateForPrgKeychain stv lam = s
        ∧ s.fetchPrgKeychainState lam
            = .error (.UninitializedStorage "Prg keychain storage not initialized"))
    ∧ (∀ s : DefaultStorage, s.xdrbgMap = none →
        s.storeStateForXdrbgKeychain stv x = s
        ∧ s.fetchXdrbgKeychainState x
            = .error (.UninitializedStorage "Xdrbg keychain storage not initialized")) := by
  refine ⟨⟨rfl, rfl, rfl⟩, ⟨rfl, rfl, rfl⟩, ⟨rfl, rfl, rfl⟩, ?_, ?_, ?_⟩
  · intro s h
    exact ⟨by simp [DefaultStorage.storeStateForHkdfKeychain, h],
      by simp [DefaultStorage.fetchHkdfKeychainState, h]⟩
  · intro s h
    exact ⟨by simp [DefaultStorage.storeStateForPrgKeychain, h],
      by simp [DefaultStorage.fetchPrgKeychainState, h]⟩
  · intro s h
    exact ⟨by simp [DefaultStorage.storeStateForXdrbgKeychain, h],
      by simp [DefaultStorage.fetchXdrbgKeychainState, h]⟩

/-- Witness for C10: stores and fetches for kinds the instance was not
configured for, on concrete fresh storages. -/
theorem storage_single_kind_witness :
    ((DefaultStorage.new KeyChainType.HkdfKeyChain).storeStateForPrgKeychain [1, 2] 16
        = DefaultStorage.new KeyChainType.HkdfKeyChain
      ∧ (DefaultStorage.new KeyChainType.HkdfKeyChain).fetchPrgKeychainState 16
        = .error (.UninitializedStorage "Prg keychain storage not initialized"))
    ∧ ((DefaultStorage.new KeyChainType.PrgKeyChain).storeStateForHkdfKeychain [1, 2]
          HashFunc.Sha256
        = DefaultStorage.new KeyChainType.PrgKeyChain
      ∧ (DefaultStorage.new KeyChainType.PrgKeyChain).fetchHkdfKeychainState
          HashFunc.Sha256
        = .error (.UninitializedStorage "Hkdf Keychain storage not initialized"))
    ∧ ((DefaultStorage.new KeyChainType.HkdfKeyChain).storeStateForXdrbgKeychain [1, 2]
          Xof.Ascon
        = DefaultStorage.new KeyChainType.HkdfKeyChain
      ∧ (DefaultStorage.new KeyChainType.HkdfKeyChain).fetchXdrbgKeychainState
          Xof.Ascon
        = .error (.UninitializedStorage "Xdrbg keychain storage not initialized")) :=
  ⟨(storage_single_kind [1, 2] HashFunc.Sha256 16 Xof.Ascon).2.2.2.2.1
     (DefaultStorage.new KeyChainType.HkdfKeyChain) rfl,
   (storage_single_kind [1, 2] HashFunc.Sha256 16 Xof.Ascon).2.2.2.1
     (DefaultStorage.new KeyChainType.PrgKeyChain) rfl,
   (storage_single_kind [1, 2] HashFunc.Sha256 16 Xof.Ascon).2.2.2.2.2
     (DefaultStorage.new KeyChainType.HkdfKeyChain) rfl⟩

end KeyChains
